import Mathlib

set_option maxRecDepth 8000

/-!
Verification of the estimate engine of the `testapp` repository
(`src/app/app.py`) against its natural-language specification.

The Python code is shallowly embedded: strings are `String`/`List Char`,
Python `int` is `Int`/`Nat`, Python `float` is modelled exactly as `ℚ`
(the engine's arithmetic — means, multipliers, bonuses — is modelled with
exact rationals; IEEE rounding of intermediate results is not modelled),
`None` is `Option.none`, and a raised exception is `Except.error`.
-/

/-- Exceptions that the embedded code can raise. -/
inductive PyErr
  | overflowError
  | statisticsError
  deriving DecidableEq, Repr

/-- Result of CPython `float(<str>)`: a finite value (kept exact as a
rational), an infinity, or a NaN.  Finite decimal literals are modelled
exactly; the overflow of huge decimal literals (≳ 1.8e308) to infinity is
not modelled (no claim depends on it). -/
inductive PyFloat
  | finite (q : ℚ)
  | inf
  | ninf
  | nan
  deriving DecidableEq, Repr

/-- ASCII whitespace stripped by Python's `str.strip()`. -/
def pyWs (c : Char) : Bool :=
  c = ' ' || c = '\t' || c = '\n' || c = '\r' || c = '\x0b' || c = '\x0c'

/-- `str.strip()` on a character list. -/
def stripWs (l : List Char) : List Char :=
  ((l.dropWhile pyWs).reverse.dropWhile pyWs).reverse

/-- `str.strip(ch)` (strip a single given character from both ends). -/
def stripChar (ch : Char) (l : List Char) : List Char :=
  ((l.dropWhile (· = ch)).reverse.dropWhile (· = ch)).reverse

/-- Numeric value of a list of ASCII digits (most significant first). -/
def digitsVal (l : List Char) : Nat :=
  l.foldl (fun a c => a * 10 + (c.toNat - '0'.toNat)) 0

/-- Exponent part of a Python float literal (the text after `e`/`E`). -/
def parseExpPart (l : List Char) : Option Int :=
  match l with
  | [] => none
  | c :: rest =>
    let (sgn, body) : Int × List Char :=
      if c = '+' then (1, rest)
      else if c = '-' then (-1, rest)
      else (1, c :: rest)
    let ds := body.takeWhile Char.isDigit
    let tail := body.dropWhile Char.isDigit
    if ds = [] || tail ≠ [] then none else some (sgn * (digitsVal ds : Int))

/-- A finite Python float literal `digits[.digits][(e|E)[±]digits]`,
as an exact rational.  `none` models `ValueError`. -/
def parseDecimalChars (l : List Char) : Option ℚ :=
  let ip := l.takeWhile Char.isDigit
  let r1 := l.dropWhile Char.isDigit
  let (fp, r2) : List Char × List Char :=
    match r1 with
    | '.' :: rest => (rest.takeWhile Char.isDigit, rest.dropWhile Char.isDigit)
    | _ => ([], r1)
  if ip = [] && fp = [] then none
  else
    let mant : ℚ := (digitsVal ip : ℚ) + (digitsVal fp : ℚ) / ((10 : ℚ) ^ fp.length)
    match r2 with
    | [] => some mant
    | 'e' :: rest => (parseExpPart rest).map fun e => mant * (10 : ℚ) ^ e
    | 'E' :: rest => (parseExpPart rest).map fun e => mant * (10 : ℚ) ^ e
    | _ => none

/-- CPython `float(<str>)`: strip whitespace, optional sign, then either a
keyword (`inf`/`infinity`/`nan`, case-insensitive) or a decimal literal.
(Underscore digit separators are not modelled; no claim uses them.) -/
def pyFloatOfChars (l : List Char) : Option PyFloat :=
  let t := stripWs l
  let (neg, body) : Bool × List Char :=
    match t with
    | '+' :: r => (false, r)
    | '-' :: r => (true, r)
    | _ => (false, t)
  let low := body.map Char.toLower
  if low = "inf".toList || low = "infinity".toList then
    some (if neg then PyFloat.ninf else PyFloat.inf)
  else if low = "nan".toList then some PyFloat.nan
  else (parseDecimalChars body).map fun q => PyFloat.finite (if neg then -q else q)

/-- Python `int(<float>)` on a finite value: truncation toward zero. -/
def pytrunc (q : ℚ) : Int :=
  if 0 ≤ q then q.floor else -((-q).floor)

/-- `parse_int` (app.py lines 66-72): `int(float(value))` guarded by
`except (TypeError, ValueError)`.  `int()` of an infinity raises
`OverflowError`, which the `except` clause does not catch, so it escapes;
`int()` of a NaN raises `ValueError`, which is caught. -/
def parse_int (value : Option String) : Except PyErr (Option Int) :=
  match value with
  | none => Except.ok none
  | some s =>
    if s = "" then Except.ok none
    else
      match pyFloatOfChars s.data with
      | none => Except.ok none
      | some (PyFloat.finite q) => Except.ok (some (pytrunc q))
      | some PyFloat.nan => Except.ok none
      | some PyFloat.inf => Except.error PyErr.overflowError
      | some PyFloat.ninf => Except.error PyErr.overflowError

/-- Python `str.replace(pat, "")` for a pattern, fuelled so that the
recursion is structural (each step consumes at least one character, so
`fuel = length` suffices): remove every non-overlapping occurrence,
scanning left to right without rescanning the produced text. -/
def removeOccAux (pat : List Char) : Nat → List Char → List Char
  | 0, l => l
  | _ + 1, [] => []
  | fuel + 1, c :: rest =>
    if pat ≠ [] ∧ pat.isPrefixOf (c :: rest) then
      removeOccAux pat fuel ((c :: rest).drop pat.length)
    else
      c :: removeOccAux pat fuel rest

/-- Python `str.replace(pat, "")`. -/
def removeOcc (pat l : List Char) : List Char :=
  removeOccAux pat l.length l

/-- Python slicing `l[:-n]`. -/
def dropLastN (l : List Char) (n : Nat) : List Char :=
  l.take (l.length - n)

/-- The cleaning phase of `parse_price` (app.py lines 87-95):
`value.strip().lower()`, removal of `$`, `,` and the noise words, then a
final `strip()`.  (`str.lower` is modelled on ASCII letters.) -/
def priceClean (s : List Char) : List Char :=
  let c0 := (stripWs s).map Char.toLower
  let c1 := removeOcc "$".toList c0
  let c2 := removeOcc ",".toList c1
  let c3 := removeOcc "auction".toList c2
  let c4 := removeOcc "guide".toList c3
  let c5 := removeOcc "prior".toList c4
  let c6 := removeOcc "offers".toList c5
  let c7 := removeOcc "auction".toList c6
  let c8 := removeOcc "tba".toList c7
  stripWs c8

/-- `re.search(r"\d+(?:\.\d+)?", ...)`: value of the leftmost, greedy
number (ASCII digits), as an exact rational. -/
def firstNumber : List Char → Option ℚ
  | [] => none
  | c :: rest =>
    if c.isDigit then
      let ds := (c :: rest).takeWhile Char.isDigit
      let r1 := (c :: rest).dropWhile Char.isDigit
      let fs : List Char :=
        match r1 with
        | '.' :: r2 => r2.takeWhile Char.isDigit
        | _ => []
      some ((digitsVal ds : ℚ) + (digitsVal fs : ℚ) / ((10 : ℚ) ^ fs.length))
    else firstNumber rest

/-- Tail of `parse_price` after the suffix detection (app.py lines
108-121): `strip("+").strip()`, number search, magnitude heuristic when no
suffix multiplier applied, and `int(...)`.  (`float` of the matched digit
string is modelled as an exact rational; CPython's overflow of 300+-digit
matches to infinity is not modelled.) -/
def priceFinish (multiplier : ℚ) (cleaned : List Char) : Option Int :=
  let c2 := stripWs (stripChar '+' cleaned)
  match firstNumber c2 with
  | none => none
  | some q =>
    let q2 :=
      if multiplier = 1 then
        if q < 10 then q * 1000000
        else if q < 10000 then q * 1000
        else q
      else q
    some (pytrunc (q2 * multiplier))

/-- `parse_price` (app.py lines 84-121), translated line by line.  The
suffix check (`m`, then `mil`, then `k`) happens on the cleaned text
*before* the trailing `+` is stripped. -/
def parse_price (value : Option String) : Option Int :=
  match value with
  | none => none
  | some s =>
    if s = "" then none
    else
      let cleaned := priceClean s.data
      if cleaned = [] then none
      else if List.isSuffixOf "m".toList cleaned then
        priceFinish 1000000 (dropLastN cleaned 1)
      else if List.isSuffixOf "mil".toList cleaned then
        priceFinish 1000000 (dropLastN cleaned 3)
      else if List.isSuffixOf "k".toList cleaned then
        priceFinish 1000 (dropLastN cleaned 1)
      else
        priceFinish 1 cleaned

/-- Specification-style `endswith`: compare the last characters, written
independently of `List.isSuffixOf`. -/
def endsWithSpec (c suf : List Char) : Bool :=
  decide (c.drop (c.length - suf.length) = suf)

/-- Specification-style suffix recognition of the spec's price grammar:
`m`/`mil` multiply by 1,000,000 and `k` by 1,000; the recognised suffix is
removed.  The three suffixes are mutually exclusive (they end in different
letters). -/
def priceSuffixSplit (c : List Char) : ℚ × List Char :=
  if endsWithSpec c "m".toList then (1000000, dropLastN c 1)
  else if endsWithSpec c "mil".toList then (1000000, dropLastN c 3)
  else if endsWithSpec c "k".toList then (1000, dropLastN c 1)
  else (1, c)

/-- The spec's magnitude heuristic: with no suffix multiplier, a number
below 10 means millions and a number below 10,000 means thousands. -/
def magnitudeHeuristic (mult q : ℚ) : ℚ :=
  if mult ≠ 1 then q * mult
  else if q < 10 then q * 1000000
  else if q < 10000 then q * 1000
  else q

/-- The price parser exactly as claim C3 words it: the trailing `+` is
stripped **before** the suffix multiplier is recognised. -/
def parse_priceClaim (value : Option String) : Option Int :=
  match value with
  | none => none
  | some s =>
    if s = "" then none
    else
      let cleaned := priceClean s.data
      if cleaned = [] then none
      else
        let plused := stripWs (stripChar '+' cleaned)
        let (mult, body) := priceSuffixSplit plused
        (firstNumber body).map fun q => pytrunc (magnitudeHeuristic mult q)

/-- The price parser as the amended claim words it: the suffix multiplier
is recognised on the cleaned text first, and only then is the trailing `+`
stripped and the first number extracted. -/
def parse_priceAmended (value : Option String) : Option Int :=
  match value with
  | none => none
  | some s =>
    if s = "" then none
    else
      let cleaned := priceClean s.data
      if cleaned = [] then none
      else
        let (mult, body) := priceSuffixSplit cleaned
        let body2 := stripWs (stripChar '+' body)
        (firstNumber body2).map fun q => pytrunc (magnitudeHeuristic mult q)

/-! ## Data model and comparable selection (app.py lines 42-63, 174-200) -/

/-- One comparable sale (`PropertyRecord`, app.py lines 42-63).  Counts and
the price are optional non-negative integers (spec section 3); the land
size is an optional rational; the sale date is an abstract time point
(`Nat`, ordered like `datetime`, with `0` playing `datetime.min`), `none`
when missing. -/
structure PropertyRecord where
  address : String
  suburb : String
  bedrooms : Option Nat
  bathrooms : Option Nat
  parking : Option Nat
  price : Option Nat
  land_size : Option ℚ
  date : Option Nat
  deriving DecidableEq, Repr

/-- Python `str.lower()` (modelled on ASCII letters). -/
def strLower (s : String) : String :=
  String.mk (s.data.map Char.toLower)

/-- Truthiness of `record.price` (`if record.price`): a present, nonzero
price. -/
def priceTruthy (r : PropertyRecord) : Bool :=
  match r.price with
  | some p => p ≠ 0
  | none => false

/-- Truthiness of `record.land_size`. -/
def landTruthy (r : PropertyRecord) : Bool :=
  match r.land_size with
  | some q => q ≠ 0
  | none => false

/-- `average_price` (app.py lines 174-178): mean of the truthy prices, or
`None` when there are none. -/
def average_price (records : List PropertyRecord) : Option ℚ :=
  let prices := (records.filter priceTruthy).map fun r => ((r.price.getD 0 : Nat) : ℚ)
  if prices = [] then none else some (prices.sum / prices.length)

/-- `average_land` (app.py lines 181-185): mean of the truthy land sizes,
or `None` when there are none. -/
def average_land (records : List PropertyRecord) : Option ℚ :=
  let lands := (records.filter landTruthy).map fun r => r.land_size.getD 0
  if lands = [] then none else some (lands.sum / lands.length)

/-- Sort key of `find_recent_sales`: `record.date or datetime.min`. -/
def dateKey (r : PropertyRecord) : Nat :=
  r.date.getD 0

/-- The suburb-and-priced filter shared by `find_recent_sales` and
`select_comparables`: case-insensitive suburb match and truthy price. -/
def suburbPriced (suburb : String) (r : PropertyRecord) : Bool :=
  strLower r.suburb = strLower suburb && priceTruthy r

/-- `find_recent_sales` (app.py lines 188-191): suburb-priced records,
stably sorted by date descending (`list.sort(key=..., reverse=True)` is a
stable sort, modelled by `List.insertionSort` with a non-strict relation),
truncated to `limit` (default 5). -/
def find_recent_sales (records : List PropertyRecord) (suburb : String)
    (limit : Nat := 5) : List PropertyRecord :=
  ((records.filter (suburbPriced suburb)).insertionSort
    (fun a b => dateKey b ≤ dateKey a)).take limit

/-- `select_comparables` (app.py lines 194-200): suburb-priced records;
with a requested bedroom count, the bedroom-exact subset when it is
non-empty. -/
def select_comparables (records : List PropertyRecord) (suburb : String)
    (bedrooms : Option Nat) : List PropertyRecord :=
  let suburb_records := records.filter (suburbPriced suburb)
  match bedrooms with
  | none => suburb_records
  | some b =>
    let exact := suburb_records.filter fun r => r.bedrooms = some b
    if exact = [] then suburb_records else exact

/-- The comparable pool as claim C4 words it: suburb matches
case-insensitively and the price is **present** (which, unlike the code's
truthiness test, admits a present price of 0). -/
def comparablePoolClaim (records : List PropertyRecord) (suburb : String) :
    List PropertyRecord :=
  records.filter fun r => strLower r.suburb = strLower suburb && r.price ≠ none

/-- `select_comparables` as claim C4 words it, on top of
`comparablePoolClaim`. -/
def select_comparablesClaim (records : List PropertyRecord) (suburb : String)
    (bedrooms : Option Nat) : List PropertyRecord :=
  let pool := comparablePoolClaim records suburb
  match bedrooms with
  | none => pool
  | some b =>
    let exact := pool.filter fun r => r.bedrooms = some b
    if exact = [] then pool else exact

/-- The comparable pool as the amended claim C4 words it: suburb matches
case-insensitively and the price is present and nonzero. -/
def comparablePoolAmended (records : List PropertyRecord) (suburb : String) :
    List PropertyRecord :=
  records.filter fun r =>
    strLower r.suburb = strLower suburb && r.price ≠ none && r.price ≠ some 0

/-- `select_comparables` as the amended claim C4 words it. -/
def select_comparablesAmended (records : List PropertyRecord) (suburb : String)
    (bedrooms : Option Nat) : List PropertyRecord :=
  let pool := comparablePoolAmended records suburb
  match bedrooms with
  | none => pool
  | some b =>
    let exact := pool.filter fun r => r.bedrooms = some b
    if exact = [] then pool else exact

/-! ## The estimate engine (app.py lines 15-39, 203-328)

The Python function reads the two catalogs from module-level constants;
following spec section 6 they are passed as configuration parameters here,
with the concrete constants below.  Catalog display labels are not used by
the engine and are omitted.  A `dict` comprehension over a list gives the
last entry priority on duplicate keys, which `dictGet` reproduces. -/

/-- Lookup in the dict built by a comprehension over an association list:
the **last** binding of a key wins. -/
def dictGet {α : Type} (l : List (String × α)) (k : String) : Option α :=
  l.foldl (fun acc p => if p.1 = k then some p.2 else acc) none

/-- `QUALITY_LEVELS` (app.py lines 15-20): id and multiplier (decimal
literals as exact rationals). -/
def QUALITY_LEVELS : List (String × ℚ) :=
  [("original_poor", 9/10), ("original_sound", 1),
   ("updated", 21/20), ("renovated_premium", 28/25)]

/-- `FEATURE_OPTIONS` (app.py lines 30-39): id and flat dollar adjustment. -/
def FEATURE_OPTIONS : List (String × Int) :=
  [("pool", 35000), ("tennis", 45000), ("solar", 12000), ("batteries", 18000),
   ("ducted_ac", 8000), ("split_ac", 4000), ("double_glazing", 9000),
   ("water_tank", 3000)]

/-- `X or Y` on optional floats: `Y` when `X` is `None` **or** equal to 0
(Python truthiness). -/
def pyOr (a b : Option ℚ) : Option ℚ :=
  match a with
  | some x => if x ≠ 0 then some x else b
  | none => b

/-- `statistics.mean` called directly on a list (app.py lines 241, 249):
raises `StatisticsError` on an empty list. -/
def pymean (l : List ℚ) : Except PyErr ℚ :=
  if l = [] then Except.error PyErr.statisticsError
  else Except.ok (l.sum / l.length)

/-- Quality multiplier (app.py lines 220-226): mean of the catalog
multipliers of the recognised choices, `1.0` when none are recognised.
The `dict` argument is modelled by its list of values (the only thing the
code reads from it). -/
def quality_multiplier_of (qualityLevels : List (String × ℚ))
    (quality_choices : List String) : ℚ :=
  let selected := (quality_choices.filter fun c => (dictGet qualityLevels c).isSome).map
    fun c => (dictGet qualityLevels c).getD 1
  if selected = [] then 1 else selected.sum / selected.length

/-- Feature bonus (app.py lines 228-231): sum of the catalog adjustments of
the selected features, unknown ids contributing 0. -/
def feature_bonus_of (featureOptions : List (String × Int))
    (selected_features : List String) : Int :=
  (selected_features.map fun f => (dictGet featureOptions f).getD 0).sum

/-- Land adjustment (app.py lines 233-237): `(land_size - mean) * 180` when
a truthy land size is given and the comparables have a truthy mean land
size, else 0. -/
def land_adjustment_of (comparables : List PropertyRecord)
    (land_size : Option ℚ) : ℚ :=
  match land_size with
  | none => 0
  | some l =>
    if l ≠ 0 then
      match average_land comparables with
      | some a => if a ≠ 0 then (l - a) * 180 else 0
      | none => 0
    else 0

/-- Bathroom bonus (app.py lines 239-245).  When a bathroom count is given
and the comparable set is non-empty, `statistics.mean` is applied to the
comparables' bathroom values with **no emptiness guard**: if none of the
comparables carries a bathroom value this raises `StatisticsError`. -/
def bathroom_bonus_of (comparables : List PropertyRecord)
    (bathrooms : Option Nat) : Except PyErr ℚ :=
  match bathrooms with
  | none => Except.ok 0
  | some b =>
    if comparables = [] then Except.ok 0
    else
      match pymean ((comparables.filterMap (·.bathrooms)).map fun n => (n : ℚ)) with
      | Except.error e => Except.error e
      | Except.ok avg =>
        Except.ok (if avg < (b : ℚ) then ((b : ℚ) - avg) * 8000 else 0)

/-- Parking bonus (app.py lines 247-253): symmetric to the bathroom bonus
with coefficient 6000, and the same missing emptiness guard. -/
def parking_bonus_of (comparables : List PropertyRecord)
    (parking : Option Nat) : Except PyErr ℚ :=
  match parking with
  | none => Except.ok 0
  | some p =>
    if comparables = [] then Except.ok 0
    else
      match pymean ((comparables.filterMap (·.parking)).map fun n => (n : ℚ)) with
      | Except.error e => Except.error e
      | Except.ok avg =>
        Except.ok (if avg < (p : ℚ) then ((p : ℚ) - avg) * 6000 else 0)

/-- Age adjustment (app.py lines 255-264): stepped lookup on the building
age in years. -/
def age_adjustment_of (building_age : Option Nat) : Int :=
  match building_age with
  | none => 0
  | some a =>
    if a ≤ 5 then 25000
    else if a ≤ 15 then 12000
    else if 40 ≤ a then -18000
    else if 25 ≤ a then -9000
    else 0

/-- The engine's output.  Besides the dictionary the Python function
returns (`estimate`, `breakdown`, `comparables` — the display string
`estimate_display` is formatting only and elided), the intermediate
components of the calculation are exposed as fields so that the
specification can speak about them.  Breakdown items carry their label and
raw numeric value; currency formatting is display only and elided. -/
structure EstimateResult where
  estimate : ℚ
  base_price : ℚ
  quality_multiplier : ℚ
  feature_bonus : Int
  land_adjustment : ℚ
  bathroom_bonus : ℚ
  parking_bonus : ℚ
  age_adjustment : Int
  breakdown : List (String × ℚ)
  comparables : List PropertyRecord
  deriving DecidableEq, Repr

/-- The breakdown list (app.py lines 276-321): baseline, quality multiplier
and feature lines always; land, bathroom, parking and age lines only when
the corresponding adjustment is truthy (nonzero). -/
def breakdown_of (base_price quality_multiplier : ℚ) (feature_bonus : Int)
    (land_adjustment bathroom_bonus parking_bonus : ℚ)
    (age_adjustment : Int) : List (String × ℚ) :=
  [("Comparable sales baseline", base_price),
   ("Quality multiplier", quality_multiplier),
   ("Feature adjustments", (feature_bonus : ℚ))]
  ++ (if land_adjustment ≠ 0 then [("Land size adjustment", land_adjustment)] else [])
  ++ (if bathroom_bonus ≠ 0 then [("Bathroom count adjustment", bathroom_bonus)] else [])
  ++ (if parking_bonus ≠ 0 then [("Parking adjustment", parking_bonus)] else [])
  ++ (if age_adjustment ≠ 0 then [("Building age adjustment", (age_adjustment : ℚ))] else [])

/-- The comparable set of `calculate_estimate` (app.py line 215):
`select_comparables(...) if suburb else []`. -/
def comparables_of (all_records : List PropertyRecord) (suburb : String)
    (bedrooms : Option Nat) : List PropertyRecord :=
  if suburb ≠ "" then select_comparables all_records suburb bedrooms else []

/-- The baseline of `calculate_estimate` (app.py lines 216-218):
`average_price(comparables) or average_price(all_records)`, defaulting to
0 when that is still `None`. -/
def base_price_of (comparables all_records : List PropertyRecord) : ℚ :=
  (pyOr (average_price comparables) (average_price all_records)).getD 0

/-- `calculate_estimate` (app.py lines 203-328).  Arguments follow the
Python keyword order, with the two catalogs appended as configuration.
`Except.error` models the uncaught `StatisticsError` of the bathroom and
parking steps. -/
def calculate_estimate (all_records : List PropertyRecord) (suburb : String)
    (bedrooms bathrooms parking : Option Nat) (land_size : Option ℚ)
    (building_age : Option Nat) (quality_choices : List String)
    (selected_features : List String)
    (qualityLevels : List (String × ℚ)) (featureOptions : List (String × Int)) :
    Except PyErr EstimateResult :=
  let comparables := comparables_of all_records suburb bedrooms
  let base_price := base_price_of comparables all_records
  let qm := quality_multiplier_of qualityLevels quality_choices
  let fb := feature_bonus_of featureOptions selected_features
  let la := land_adjustment_of comparables land_size
  match bathroom_bonus_of comparables bathrooms with
  | Except.error e => Except.error e
  | Except.ok bb =>
    match parking_bonus_of comparables parking with
    | Except.error e => Except.error e
    | Except.ok pb =>
      let aa := age_adjustment_of building_age
      let est := max 0 (base_price * qm + (fb : ℚ) + la + bb + pb + (aa : ℚ))
      Except.ok
        { estimate := est
          base_price := base_price
          quality_multiplier := qm
          feature_bonus := fb
          land_adjustment := la
          bathroom_bonus := bb
          parking_bonus := pb
          age_adjustment := aa
          breakdown := breakdown_of base_price qm fb la bb pb aa
          comparables := comparables }

/-- A record whose price is exactly 0 mapped to the same record with the
price absent (for claim C10's "treated as if its price were absent"). -/
def zapZeroPrice (r : PropertyRecord) : PropertyRecord :=
  if r.price = some 0 then { r with price := none } else r

/-! ## Concrete fixtures used by scenarios, counterexamples and witnesses -/

/-- A priced comparable that carries no bathroom and no parking value. -/
def recNoBath : PropertyRecord :=
  { address := "1 Alpha St", suburb := "kippax", bedrooms := none,
    bathrooms := none, parking := none, price := some 500000,
    land_size := none, date := none }

/-- A priced comparable with land size 100. -/
def recLand : PropertyRecord :=
  { address := "2 Beta St", suburb := "Kippax", bedrooms := none,
    bathrooms := none, parking := none, price := some 500000,
    land_size := some 100, date := none }

/-- A record with a present price of exactly 0. -/
def recZero : PropertyRecord :=
  { address := "3 Gamma St", suburb := "Kippax", bedrooms := none,
    bathrooms := none, parking := none, price := some 0,
    land_size := none, date := none }

/-- Three 3-bedroom Kippax sales priced 600000 / 650000 / 700000 (the
spec's end-to-end scenario dataset). -/
def kipRec (pr : Nat) : PropertyRecord :=
  { address := "x", suburb := "Kippax", bedrooms := some 3,
    bathrooms := none, parking := none, price := some pr,
    land_size := none, date := none }

def K3 : List PropertyRecord := [kipRec 600000, kipRec 650000, kipRec 700000]

/-- The engine's result on `K3` with suburb "Kippax", bedrooms 3 and no
other inputs (also the result when a building age between 16 and 24 is
added, since that age adjustment is 0). -/
def resKippax : EstimateResult :=
  { estimate := 650000, base_price := 650000, quality_multiplier := 1,
    feature_bonus := 0, land_adjustment := 0, bathroom_bonus := 0,
    parking_bonus := 0, age_adjustment := 0,
    breakdown := [("Comparable sales baseline", 650000),
                  ("Quality multiplier", 1), ("Feature adjustments", 0)],
    comparables := K3 }

/-- Same run with quality choice `updated` under the stock catalog
(multiplier 1.05). -/
def resKipUpd : EstimateResult :=
  { estimate := 682500, base_price := 650000, quality_multiplier := 21/20,
    feature_bonus := 0, land_adjustment := 0, bathroom_bonus := 0,
    parking_bonus := 0, age_adjustment := 0,
    breakdown := [("Comparable sales baseline", 650000),
                  ("Quality multiplier", 21/20), ("Feature adjustments", 0)],
    comparables := K3 }

/-- Same run under the catalog with `updated`'s multiplier raised to 1.10. -/
def resKipUpd' : EstimateResult :=
  { estimate := 715000, base_price := 650000, quality_multiplier := 11/10,
    feature_bonus := 0, land_adjustment := 0, bathroom_bonus := 0,
    parking_bonus := 0, age_adjustment := 0,
    breakdown := [("Comparable sales baseline", 650000),
                  ("Quality multiplier", 11/10), ("Feature adjustments", 0)],
    comparables := K3 }

/-- The engine's result on `[recLand]` with no suburb and land size 200. -/
def resNoSuburb : EstimateResult :=
  { estimate := 500000, base_price := 500000, quality_multiplier := 1,
    feature_bonus := 0, land_adjustment := 0, bathroom_bonus := 0,
    parking_bonus := 0, age_adjustment := 0,
    breakdown := [("Comparable sales baseline", 500000),
                  ("Quality multiplier", 1), ("Feature adjustments", 0)],
    comparables := [] }

/-- A dated Kippax sale (price, abstract sale-date ordinal). -/
def kipDated (pr d : Nat) : PropertyRecord :=
  { address := "x", suburb := "Kippax", bedrooms := none,
    bathrooms := none, parking := none, price := some pr,
    land_size := none, date := some d }

/-- Five dated Kippax records (spec's recent-sales scenario). -/
def D5 : List PropertyRecord :=
  [kipDated 1 11, kipDated 2 14, kipDated 3 12, kipDated 4 15, kipDated 5 13]

/-! ## Helper lemmas -/

theorem priceFinish_eq (mult : ℚ) (cleaned : List Char) :
    priceFinish mult cleaned =
      (firstNumber (stripWs (stripChar '+' cleaned))).map
        fun q => pytrunc (magnitudeHeuristic mult q) := by
  simp only [priceFinish]
  cases hfn : firstNumber (stripWs (stripChar '+' cleaned)) with
  | none => rfl
  | some q =>
    simp only [Option.map_some']
    unfold magnitudeHeuristic
    by_cases h : mult = 1
    · subst h
      simp [mul_one]
    · simp [h]

theorem isSuffixOf_eq_endsWithSpec (suf c : List Char) :
    List.isSuffixOf suf c = endsWithSpec c suf := by
  unfold endsWithSpec
  by_cases h : suf <:+ c
  · have h1 : List.isSuffixOf suf c = true := List.isSuffixOf_iff_suffix.mpr h
    have h2 : c.drop (c.length - suf.length) = suf :=
      (List.suffix_iff_eq_drop.mp h).symm
    simp [h1, h2]
  · have h1 : List.isSuffixOf suf c = false := by
      rw [Bool.eq_false_iff]
      intro hc
      exact h (List.isSuffixOf_iff_suffix.mp hc)
    have h2 : ¬ (c.drop (c.length - suf.length) = suf) := by
      intro hc
      exact h (List.suffix_iff_eq_drop.mpr hc.symm)
    simp [h1, h2]

set_option maxHeartbeats 1000000 in
theorem parse_price_eq_amended (v : Option String) :
    parse_price v = parse_priceAmended v := by
  cases v with
  | none => rfl
  | some s =>
    dsimp only [parse_price, parse_priceAmended]
    by_cases hs : s = ""
    · subst hs; rfl
    · rw [if_neg hs, if_neg hs]
      by_cases h0 : priceClean s.data = []
      · rw [if_pos h0, if_pos h0]
      · rw [if_neg h0, if_neg h0]
        rw [isSuffixOf_eq_endsWithSpec, isSuffixOf_eq_endsWithSpec,
          isSuffixOf_eq_endsWithSpec]
        unfold priceSuffixSplit
        by_cases hm : endsWithSpec (priceClean s.data) ['m']
        · simp [hm, priceFinish_eq]
        · by_cases hmil : endsWithSpec (priceClean s.data) ['m', 'i', 'l']
          · simp [hm, hmil, priceFinish_eq]
          · by_cases hk : endsWithSpec (priceClean s.data) ['k']
            · simp [hm, hmil, hk, priceFinish_eq]
            · simp [hm, hmil, hk, priceFinish_eq]

theorem select_comparables_eq_amended (records : List PropertyRecord)
    (suburb : String) (beds : Option Nat) :
    select_comparables records suburb beds =
      select_comparablesAmended records suburb beds := by
  unfold select_comparables select_comparablesAmended comparablePoolAmended
  have hfilter : records.filter (suburbPriced suburb) =
      records.filter (fun r =>
        strLower r.suburb = strLower suburb && r.price ≠ none && r.price ≠ some 0) := by
    apply List.filter_congr
    intro r _
    unfold suburbPriced priceTruthy
    cases hr : r.price with
    | none => simp [hr]
    | some p => by_cases hp : p = 0 <;> simp [hr, hp]
  rw [hfilter]

/-! ## Claims -/

/-- Claim C1 (code bug): the spec says the engine has no failure mode, but
`calculate_estimate` raises `statistics.StatisticsError` when a bathroom
count is given and the selected comparable set is non-empty yet contains
no record with a bathroom value, because `mean` is applied to the empty
list of bathroom values.  This theorem evaluates the engine at such an
input: one priced Kippax comparable without bathroom data, query with
`bathrooms = 2`. -/
theorem C1_engine_raises_statistics_error :
    calculate_estimate [recNoBath] "kippax" none (some 2) none none none
      [] [] QUALITY_LEVELS FEATURE_OPTIONS = Except.error PyErr.statisticsError := by
  rfl

/-- Claim C2 (code bug): the spec says every field parser returns a typed
value or no value and never raises, but `parse_int` on the string `"inf"`
reaches `int(float("inf"))`, which raises `OverflowError` — an exception
the surrounding `except (TypeError, ValueError)` does not catch. -/
theorem C2_parse_int_inf_overflows :
    parse_int (some "inf") = Except.error PyErr.overflowError := by
  rfl

/-- Claim C3, counterexample: on `"5k+"` the code checks the suffix before
stripping the trailing `+`, so the `k` (not last character) is not
recognised and the below-10 heuristic fires: the code returns 5,000,000,
while the claim's pipeline (strip the trailing `+` first, then apply the
`k` multiplier) yields 5,000. -/
theorem C3_price_order_counterexample :
    parse_price (some "5k+") = some 5000000 ∧
      parse_priceClaim (some "5k+") = some 5000 :=
  ⟨by with_unfolding_all rfl, by with_unfolding_all rfl⟩

/-- Claim C3, amended: `parse_price` lower-cases and strips currency
symbols, thousands separators and noise words, then recognises the suffix
(`m`/`mil` ×1,000,000, `k` ×1,000) **before** stripping the trailing `+`;
it then takes the first numeric substring of the `+`-stripped remainder;
with no suffix, a first number below 10 is multiplied by 1,000,000 and one
below 10,000 by 1,000, otherwise the literal value is used; the result is
the non-negative integer truncation, or no value when no numeric substring
exists.  In particular `"$1,250,000"` ↦ 1250000, `"850k"` ↦ 850000 and
`"Auction"` ↦ no value. -/
theorem C3_price_parser_amended :
    (∀ v, parse_price v = parse_priceAmended v) ∧
      parse_price (some "$1,250,000") = some 1250000 ∧
      parse_price (some "850k") = some 850000 ∧
      parse_price (some "Auction") = none :=
  ⟨parse_price_eq_amended, by with_unfolding_all rfl,
   by with_unfolding_all rfl,
   by with_unfolding_all rfl⟩

/-- Claim C4, counterexample: a record whose price is present but equal to
0 satisfies the claim's filter ("price is present") yet is dropped by the
code's truthiness test, so `select_comparables` returns the empty list
where the claim's description returns the record. -/
theorem C4_zero_price_counterexample :
    select_comparables [recZero] "Kippax" none = [] ∧
      select_comparablesClaim [recZero] "Kippax" none = [recZero] :=
  ⟨by with_unfolding_all rfl, by with_unfolding_all rfl⟩

/-- Claim C4, amended: `select_comparables` filters to records whose
suburb matches case-insensitively and whose price is present **and
nonzero**; when a bedroom count is given and the bedroom-exact subset of
that set is non-empty it returns exactly that subset, and otherwise the
full suburb-priced set. -/
theorem C4_select_comparables_amended :
    ∀ (records : List PropertyRecord) (suburb : String) (beds : Option Nat),
      select_comparables records suburb beds =
        select_comparablesAmended records suburb beds :=
  select_comparables_eq_amended

theorem average_price_nil : average_price [] = none := rfl

theorem bathroom_bonus_of_nil (b : Option Nat) :
    bathroom_bonus_of [] b = Except.ok 0 := by
  cases b <;> rfl

theorem parking_bonus_of_nil (p : Option Nat) :
    parking_bonus_of [] p = Except.ok 0 := by
  cases p <;> rfl

theorem land_adjustment_of_nil (l : Option ℚ) :
    land_adjustment_of [] l = 0 := by
  cases l with
  | none => rfl
  | some q =>
    dsimp only [land_adjustment_of]
    split <;> rfl

theorem comparables_of_no_suburb (all : List PropertyRecord) (beds : Option Nat) :
    comparables_of all "" beds = [] := by
  simp [comparables_of]

theorem calculate_estimate_ok_elim
    (all_records : List PropertyRecord) (suburb : String)
    (bedrooms bathrooms parking : Option Nat) (land_size : Option ℚ)
    (building_age : Option Nat) (qc feats : List String)
    (qls : List (String × ℚ)) (fos : List (String × Int)) (r : EstimateResult)
    (h : calculate_estimate all_records suburb bedrooms bathrooms parking
      land_size building_age qc feats qls fos = Except.ok r) :
    bathroom_bonus_of (comparables_of all_records suburb bedrooms) bathrooms
        = Except.ok r.bathroom_bonus ∧
    parking_bonus_of (comparables_of all_records suburb bedrooms) parking
        = Except.ok r.parking_bonus ∧
    r.comparables = comparables_of all_records suburb bedrooms ∧
    r.base_price = base_price_of (comparables_of all_records suburb bedrooms) all_records ∧
    r.quality_multiplier = quality_multiplier_of qls qc ∧
    r.feature_bonus = feature_bonus_of fos feats ∧
    r.land_adjustment = land_adjustment_of (comparables_of all_records suburb bedrooms) land_size ∧
    r.age_adjustment = age_adjustment_of building_age ∧
    r.breakdown = breakdown_of r.base_price r.quality_multiplier r.feature_bonus
      r.land_adjustment r.bathroom_bonus r.parking_bonus r.age_adjustment ∧
    r.estimate = max 0 (r.base_price * r.quality_multiplier + (r.feature_bonus : ℚ)
      + r.land_adjustment + r.bathroom_bonus + r.parking_bonus + (r.age_adjustment : ℚ)) := by
  dsimp only [calculate_estimate] at h
  cases hbb : bathroom_bonus_of (comparables_of all_records suburb bedrooms) bathrooms with
  | error e => rw [hbb] at h; exact absurd h (by simp)
  | ok bb =>
    rw [hbb] at h
    cases hpb : parking_bonus_of (comparables_of all_records suburb bedrooms) parking with
    | error e => rw [hpb] at h; exact absurd h (by simp)
    | ok pb =>
      rw [hpb] at h
      injection h with h'
      subst h'
      exact ⟨rfl, rfl, rfl, rfl, rfl, rfl, rfl, rfl, rfl, rfl⟩

/-- Claim C5, counterexample: with no suburb, dataset `[recLand]` (price
500000, land 100) and a given land size of 200, the claim predicts a land
adjustment of (200 − 100) × 180 = 18000 against the whole dataset's mean;
the code uses the **empty** comparable set instead, so the land adjustment
is 0 (and the estimate stays at the baseline 500000). -/
theorem C5_no_suburb_counterexample :
    Except.map EstimateResult.land_adjustment
      (calculate_estimate [recLand] "" none none none (some 200) none [] []
        QUALITY_LEVELS FEATURE_OPTIONS) = Except.ok 0 ∧
    Except.map EstimateResult.estimate
      (calculate_estimate [recLand] "" none none none (some 200) none [] []
        QUALITY_LEVELS FEATURE_OPTIONS) = Except.ok 500000 ∧
    ((200 : ℚ) - 100) * 180 = 18000 ∧ (0 : ℚ) ≠ 18000 :=
  ⟨by with_unfolding_all rfl, by with_unfolding_all rfl, by norm_num, by norm_num⟩

/-- Claim C5, amended: when the query gives no suburb, the comparable set
is **empty** (not the full dataset).  Only the baseline falls back to the
whole dataset's mean price; the land, bathroom and parking adjustments are
all 0 because the empty comparable set has no computable means. -/
theorem C5_no_suburb_amended
    (records : List PropertyRecord) (bedrooms bathrooms parking : Option Nat)
    (land_size : Option ℚ) (building_age : Option Nat) (qc feats : List String)
    (qls : List (String × ℚ)) (fos : List (String × Int)) (r : EstimateResult)
    (h : calculate_estimate records "" bedrooms bathrooms parking land_size
      building_age qc feats qls fos = Except.ok r) :
    r.comparables = [] ∧ r.base_price = (average_price records).getD 0 ∧
    r.land_adjustment = 0 ∧ r.bathroom_bonus = 0 ∧ r.parking_bonus = 0 := by
  obtain ⟨hbb, hpb, hcomp, hbase, _, _, hla, _, _, _⟩ :=
    calculate_estimate_ok_elim records "" bedrooms bathrooms parking land_size
      building_age qc feats qls fos r h
  rw [comparables_of_no_suburb] at hbb hpb hcomp hbase hla
  rw [bathroom_bonus_of_nil] at hbb
  rw [parking_bonus_of_nil] at hpb
  injection hbb with hbb'
  injection hpb with hpb'
  refine ⟨hcomp, ?_, ?_, hbb'.symm, hpb'.symm⟩
  · rw [hbase]
    rfl
  · rw [hla, land_adjustment_of_nil]

/-- Witness for the amended claim C5 at the concrete counterexample
input. -/
theorem C5_no_suburb_amended_witness :
    resNoSuburb.comparables = [] ∧
      resNoSuburb.base_price = (average_price [recLand]).getD 0 ∧
      resNoSuburb.land_adjustment = 0 ∧ resNoSuburb.bathroom_bonus = 0 ∧
      resNoSuburb.parking_bonus = 0 :=
  C5_no_suburb_amended [recLand] none none none (some 200) none [] []
    QUALITY_LEVELS FEATURE_OPTIONS resNoSuburb (by with_unfolding_all rfl)

theorem mem_select_comparables_truthy (records : List PropertyRecord)
    (suburb : String) (beds : Option Nat) :
    ∀ r ∈ select_comparables records suburb beds, priceTruthy r := by
  intro r hr
  have base : ∀ x ∈ records.filter (suburbPriced suburb), priceTruthy x := by
    intro x hx
    exact (Bool.and_eq_true _ _ |>.mp (List.mem_filter.mp hx).2).2
  cases beds with
  | none =>
    dsimp only [select_comparables] at hr
    exact base r hr
  | some b =>
    dsimp only [select_comparables] at hr
    by_cases hc : (records.filter (suburbPriced suburb)).filter
        (fun r => r.bedrooms = some b) = []
    · rw [if_pos hc] at hr
      exact base r hr
    · rw [if_neg hc] at hr
      exact base r (List.mem_filter.mp hr).1

theorem mem_comparables_of_truthy (all : List PropertyRecord) (suburb : String)
    (beds : Option Nat) :
    ∀ r ∈ comparables_of all suburb beds, priceTruthy r := by
  intro r hr
  dsimp only [comparables_of] at hr
  split at hr
  · exact mem_select_comparables_truthy all suburb beds r hr
  · simp at hr

theorem average_price_nonneg (l : List PropertyRecord) (q : ℚ)
    (h : average_price l = some q) : 0 ≤ q := by
  dsimp only [average_price] at h
  split at h
  · exact absurd h (by simp)
  · injection h with h'
    subst h'
    apply div_nonneg
    · apply List.sum_nonneg
      intro x hx
      obtain ⟨r, _, rfl⟩ := List.mem_map.mp hx
      exact Nat.cast_nonneg _
    · exact Nat.cast_nonneg _

theorem average_price_pos (l : List PropertyRecord) (hl : l ≠ [])
    (ht : ∀ r ∈ l, priceTruthy r) :
    ∃ q, average_price l = some q ∧ 0 < q := by
  have hfilter : l.filter priceTruthy = l :=
    List.filter_eq_self.mpr ht
  have hne : (l.filter priceTruthy).map
      (fun r => ((r.price.getD 0 : Nat) : ℚ)) ≠ [] := by
    rw [hfilter]
    simpa using hl
  refine ⟨((l.filter priceTruthy).map
      (fun r => ((r.price.getD 0 : Nat) : ℚ))).sum /
    ((l.filter priceTruthy).map
      (fun r => ((r.price.getD 0 : Nat) : ℚ))).length, ?_, ?_⟩
  · dsimp only [average_price]
    rw [if_neg hne]
  · apply div_pos
    · apply List.sum_pos
      · intro x hx
        obtain ⟨r, hrmem, rfl⟩ := List.mem_map.mp hx
        rw [hfilter] at hrmem
        have := ht r hrmem
        dsimp only [priceTruthy] at this
        cases hp : r.price with
        | none => rw [hp] at this; exact absurd this (by simp)
        | some p =>
          rw [hp] at this
          simp only [hp, Option.getD_some]
          have hp0 : p ≠ 0 := by simpa using this
          exact_mod_cast Nat.pos_of_ne_zero hp0
      · exact hne
    · have : 0 < ((l.filter priceTruthy).map
          (fun r => ((r.price.getD 0 : Nat) : ℚ))).length :=
        List.length_pos.mpr hne
      exact_mod_cast this

theorem base_price_of_nil (all : List PropertyRecord) :
    base_price_of [] all = (average_price all).getD 0 := rfl

theorem base_price_of_spec (C all : List PropertyRecord) (hne : C ≠ [])
    (ht : ∀ r ∈ C, priceTruthy r) :
    average_price C = some (base_price_of C all) := by
  obtain ⟨q, hq, hpos⟩ := average_price_pos C hne ht
  rw [hq]
  dsimp only [base_price_of, pyOr]
  rw [hq]
  dsimp only
  rw [if_pos (ne_of_gt hpos)]
  rfl

theorem base_price_of_nonneg (C all : List PropertyRecord) :
    0 ≤ base_price_of C all := by
  dsimp only [base_price_of, pyOr]
  cases h1 : average_price C with
  | some q =>
    dsimp only
    by_cases hq : q ≠ 0
    · rw [if_pos hq]
      exact average_price_nonneg C q h1
    · rw [if_neg hq]
      cases h2 : average_price all with
      | some p => exact average_price_nonneg all p h2
      | none => exact le_refl 0
  | none =>
    dsimp only
    cases h2 : average_price all with
    | some p => exact average_price_nonneg all p h2
    | none => exact le_refl 0

/-- Claim C6: whenever `calculate_estimate` returns a result, the baseline
is the mean price of the comparable set, falling back to the mean price of
the entire dataset when the comparable set is empty (0 when that is also
empty); and the final estimate is
max(0, baseline × quality multiplier + feature bonus + land adjustment +
bathroom bonus + parking bonus + age adjustment), hence never negative. -/
theorem C6_baseline_formula_and_floor
    (records : List PropertyRecord) (suburb : String)
    (bedrooms bathrooms parking : Option Nat) (land_size : Option ℚ)
    (building_age : Option Nat) (qc feats : List String)
    (qls : List (String × ℚ)) (fos : List (String × Int)) (r : EstimateResult)
    (h : calculate_estimate records suburb bedrooms bathrooms parking land_size
      building_age qc feats qls fos = Except.ok r) :
    (r.comparables = [] → r.base_price = (average_price records).getD 0) ∧
    (r.comparables ≠ [] → average_price r.comparables = some r.base_price) ∧
    r.estimate = max 0 (r.base_price * r.quality_multiplier + (r.feature_bonus : ℚ)
      + r.land_adjustment + r.bathroom_bonus + r.parking_bonus + (r.age_adjustment : ℚ)) ∧
    0 ≤ r.estimate := by
  obtain ⟨_, _, hcomp, hbase, _, _, _, _, _, hest⟩ :=
    calculate_estimate_ok_elim records suburb bedrooms bathrooms parking
      land_size building_age qc feats qls fos r h
  refine ⟨?_, ?_, hest, ?_⟩
  · intro hc
    rw [hcomp] at hc
    rw [hbase, hc]
    exact base_price_of_nil records
  · intro hc
    rw [hcomp] at hc ⊢
    rw [hbase]
    exact base_price_of_spec _ records hc
      (mem_comparables_of_truthy records suburb bedrooms)
  · rw [hest]
    exact le_max_left 0 _

/-- Witness for claim C6 at the spec's end-to-end scenario (three Kippax
records priced 600000/650000/700000, query Kippax with 3 bedrooms). -/
theorem C6_baseline_formula_and_floor_witness :
    average_price resKippax.comparables = some resKippax.base_price ∧
    0 ≤ resKippax.estimate :=
  ⟨(C6_baseline_formula_and_floor K3 "Kippax" (some 3) none none none none [] []
      QUALITY_LEVELS FEATURE_OPTIONS resKippax (by with_unfolding_all rfl)).2.1
      (by with_unfolding_all decide),
   (C6_baseline_formula_and_floor K3 "Kippax" (some 3) none none none none [] []
      QUALITY_LEVELS FEATURE_OPTIONS resKippax (by with_unfolding_all rfl)).2.2.2⟩

theorem dictGet_fold_mono (k : String) (l₁ l₂ : List (String × ℚ))
    (hrel : List.Forall₂ (fun p q => p.1 = q.1 ∧ p.2 ≤ q.2) l₁ l₂) :
    ∀ (a₁ a₂ : Option ℚ), a₁.isSome = a₂.isSome → a₁.getD 1 ≤ a₂.getD 1 →
      ((l₁.foldl (fun acc p => if p.1 = k then some p.2 else acc) a₁).isSome
        = (l₂.foldl (fun acc p => if p.1 = k then some p.2 else acc) a₂).isSome) ∧
      ((l₁.foldl (fun acc p => if p.1 = k then some p.2 else acc) a₁).getD 1
        ≤ (l₂.foldl (fun acc p => if p.1 = k then some p.2 else acc) a₂).getD 1) := by
  induction hrel with
  | nil => exact fun a₁ a₂ h1 h2 => ⟨h1, h2⟩
  | @cons p q l₁' l₂' hpq htail ih =>
    intro a₁ a₂ h1 h2
    obtain ⟨hid, hle⟩ := hpq
    simp only [List.foldl_cons]
    apply ih
    · by_cases hk : q.1 = k
      · rw [if_pos hk, if_pos (hid.trans hk)]
        rfl
      · rw [if_neg hk, if_neg (fun hc => hk (hid.symm.trans hc))]
        exact h1
    · by_cases hk : q.1 = k
      · rw [if_pos hk, if_pos (hid.trans hk)]
        exact hle
      · rw [if_neg hk, if_neg (fun hc => hk (hid.symm.trans hc))]
        exact h2

theorem quality_multiplier_mono (qls₁ qls₂ : List (String × ℚ)) (qc : List String)
    (hrel : List.Forall₂ (fun p q => p.1 = q.1 ∧ p.2 ≤ q.2) qls₁ qls₂) :
    quality_multiplier_of qls₁ qc ≤ quality_multiplier_of qls₂ qc := by
  have hdict : ∀ c, ((dictGet qls₁ c).isSome = (dictGet qls₂ c).isSome) ∧
      ((dictGet qls₁ c).getD 1 ≤ (dictGet qls₂ c).getD 1) :=
    fun c => dictGet_fold_mono c qls₁ qls₂ hrel none none rfl le_rfl
  have hfeq : qc.filter (fun c => (dictGet qls₁ c).isSome)
      = qc.filter (fun c => (dictGet qls₂ c).isSome) :=
    List.filter_congr (fun c _ => (hdict c).1)
  dsimp only [quality_multiplier_of]
  rw [hfeq]
  by_cases hF : qc.filter (fun c => (dictGet qls₂ c).isSome) = []
  · rw [hF]
    simp
  · have hne₁ : (qc.filter (fun c => (dictGet qls₂ c).isSome)).map
        (fun c => (dictGet qls₁ c).getD 1) ≠ [] := by
      simpa using hF
    have hne₂ : (qc.filter (fun c => (dictGet qls₂ c).isSome)).map
        (fun c => (dictGet qls₂ c).getD 1) ≠ [] := by
      simpa using hF
    rw [if_neg hne₁, if_neg hne₂, List.length_map, List.length_map]
    have hpos : 0 < ((qc.filter (fun c => (dictGet qls₂ c).isSome)).length : ℚ) := by
      have := List.length_pos.mpr hF
      exact_mod_cast this
    rw [div_le_div_iff_of_pos_right hpos]
    exact List.sum_le_sum (fun c _ => (hdict c).2)

theorem forall₂_pair_refl (l : List (String × ℚ)) :
    List.Forall₂ (fun p q => p.1 = q.1 ∧ p.2 ≤ q.2) l l := by
  induction l with
  | nil => exact List.Forall₂.nil
  | cons x xs ih => exact List.Forall₂.cons ⟨rfl, le_rfl⟩ ih

theorem forall₂_le_set (l : List (String × ℚ)) (j : Nat) (hj : j < l.length)
    (m' : ℚ) (hle : (l.get ⟨j, hj⟩).2 ≤ m') :
    List.Forall₂ (fun p q => p.1 = q.1 ∧ p.2 ≤ q.2) l
      (l.set j ((l.get ⟨j, hj⟩).1, m')) := by
  induction l generalizing j with
  | nil => simp at hj
  | cons x xs ih =>
    cases j with
    | zero =>
      exact List.Forall₂.cons ⟨rfl, hle⟩ (forall₂_pair_refl xs)
    | succ n =>
      exact List.Forall₂.cons ⟨rfl, le_rfl⟩
        (ih n (Nat.lt_of_succ_lt_succ hj) hle)

/-- Claim C7: the final estimate is monotonically non-decreasing in the
quality multiplier — raising one selected quality level's multiplier in
the catalog (all other inputs fixed) never lowers the estimate. -/
theorem C7_estimate_monotone_in_multiplier
    (records : List PropertyRecord) (suburb : String)
    (bedrooms bathrooms parking : Option Nat) (land_size : Option ℚ)
    (building_age : Option Nat) (qc feats : List String)
    (fos : List (String × Int)) (qls : List (String × ℚ)) (j : Nat)
    (hj : j < qls.length) (m' : ℚ)
    (hsel : (qls.get ⟨j, hj⟩).1 ∈ qc)
    (hle : (qls.get ⟨j, hj⟩).2 ≤ m') (r₁ r₂ : EstimateResult)
    (h₁ : calculate_estimate records suburb bedrooms bathrooms parking land_size
      building_age qc feats qls fos = Except.ok r₁)
    (h₂ : calculate_estimate records suburb bedrooms bathrooms parking land_size
      building_age qc feats (qls.set j ((qls.get ⟨j, hj⟩).1, m')) fos
        = Except.ok r₂) :
    r₁.estimate ≤ r₂.estimate := by
  obtain ⟨hbb₁, hpb₁, _, hbase₁, hqm₁, hfb₁, hla₁, haa₁, _, hest₁⟩ :=
    calculate_estimate_ok_elim records suburb bedrooms bathrooms parking
      land_size building_age qc feats qls fos r₁ h₁
  obtain ⟨hbb₂, hpb₂, _, hbase₂, hqm₂, hfb₂, hla₂, haa₂, _, hest₂⟩ :=
    calculate_estimate_ok_elim records suburb bedrooms bathrooms parking
      land_size building_age qc feats (qls.set j ((qls.get ⟨j, hj⟩).1, m')) fos
      r₂ h₂
  have hbb : r₁.bathroom_bonus = r₂.bathroom_bonus := by
    have h := hbb₁.symm.trans hbb₂
    injection h
  have hpb : r₁.parking_bonus = r₂.parking_bonus := by
    have h := hpb₁.symm.trans hpb₂
    injection h
  rw [hest₁, hest₂, hbase₁, hbase₂, hqm₁, hqm₂, hfb₁, hfb₂, hla₁, hla₂,
    haa₁, haa₂, hbb, hpb]
  apply max_le_max le_rfl
  have hmono := quality_multiplier_mono qls (qls.set j ((qls.get ⟨j, hj⟩).1, m'))
    qc (forall₂_le_set qls j hj m' hle)
  have hB := base_price_of_nonneg (comparables_of records suburb bedrooms) records
  gcongr

/-- Witness for claim C7: the Kippax scenario with quality choice
`updated`, comparing the stock catalog (multiplier 1.05, estimate 682500)
with the same catalog where `updated` is raised to 1.10 (estimate
715000). -/
theorem C7_estimate_monotone_in_multiplier_witness :
    resKipUpd.estimate ≤ resKipUpd'.estimate :=
  C7_estimate_monotone_in_multiplier K3 "Kippax" (some 3) none none none none
    ["updated"] [] FEATURE_OPTIONS QUALITY_LEVELS 2 (by decide) (11/10)
    (by decide) (by norm_num [QUALITY_LEVELS]) resKipUpd resKipUpd'
    (by with_unfolding_all rfl) (by with_unfolding_all rfl)

theorem age_label_not_mem (b qm : ℚ) (fb : Int) (la bb pb : ℚ) :
    "Building age adjustment" ∉ (breakdown_of b qm fb la bb pb 0).map Prod.fst := by
  intro hmem
  dsimp only [breakdown_of] at hmem
  split_ifs at hmem <;> simp_all

/-- Claim C8: for a non-negative building age the age adjustment is the
step function (≤5 → +25000, 6–15 → +12000, 16–24 → 0 with no breakdown
line item, 25–39 → −9000, ≥40 → −18000); and on the scenario with
baseline 650000, multiplier 1.0 and building age 3 the estimate is
675000. -/
theorem C8_age_adjustment_step :
    (∀ a : Nat,
      (a ≤ 5 → age_adjustment_of (some a) = 25000) ∧
      (6 ≤ a → a ≤ 15 → age_adjustment_of (some a) = 12000) ∧
      (16 ≤ a → a ≤ 24 → age_adjustment_of (some a) = 0) ∧
      (25 ≤ a → a ≤ 39 → age_adjustment_of (some a) = -9000) ∧
      (40 ≤ a → age_adjustment_of (some a) = -18000)) ∧
    (∀ (records : List PropertyRecord) (suburb : String)
      (bedrooms bathrooms parking : Option Nat) (land_size : Option ℚ)
      (qc feats : List String) (qls : List (String × ℚ))
      (fos : List (String × Int)) (a : Nat) (r : EstimateResult),
      calculate_estimate records suburb bedrooms bathrooms parking land_size
        (some a) qc feats qls fos = Except.ok r →
      16 ≤ a → a ≤ 24 →
      "Building age adjustment" ∉ r.breakdown.map Prod.fst) ∧
    Except.map EstimateResult.estimate
      (calculate_estimate K3 "Kippax" (some 3) none none none (some 3) [] []
        QUALITY_LEVELS FEATURE_OPTIONS) = Except.ok 675000 := by
  refine ⟨?_, ?_, by with_unfolding_all rfl⟩
  · intro a
    refine ⟨?_, ?_, ?_, ?_, ?_⟩ <;>
      · intros
        dsimp only [age_adjustment_of]
        split_ifs <;> omega
  · intro records suburb bedrooms bathrooms parking land_size qc feats qls fos
      a r h h16 h24
    obtain ⟨_, _, _, _, _, _, _, haa, hbd, _⟩ :=
      calculate_estimate_ok_elim records suburb bedrooms bathrooms parking
        land_size (some a) qc feats qls fos r h
    have haa0 : r.age_adjustment = 0 := by
      rw [haa]
      dsimp only [age_adjustment_of]
      split_ifs <;> omega
    rw [hbd, haa0]
    exact age_label_not_mem _ _ _ _ _ _

/-- Witness for claim C8 at concrete ages (3, 20, 30, 45) and at a
concrete run with building age 20, whose breakdown carries no age line. -/
theorem C8_age_adjustment_step_witness :
    age_adjustment_of (some 3) = 25000 ∧ age_adjustment_of (some 20) = 0 ∧
    age_adjustment_of (some 30) = -9000 ∧ age_adjustment_of (some 45) = -18000 ∧
    "Building age adjustment" ∉ resKippax.breakdown.map Prod.fst :=
  ⟨(C8_age_adjustment_step.1 3).1 (by decide),
   (C8_age_adjustment_step.1 20).2.2.1 (by decide) (by decide),
   (C8_age_adjustment_step.1 30).2.2.2.1 (by decide) (by decide),
   (C8_age_adjustment_step.1 45).2.2.2.2 (by decide),
   C8_age_adjustment_step.2.1 K3 "Kippax" (some 3) none none none [] []
     QUALITY_LEVELS FEATURE_OPTIONS 20 resKippax (by with_unfolding_all rfl)
     (by decide) (by decide)⟩

/-- Claim C9: `find_recent_sales` returns the suburb's (priced) records
sorted by sale date descending — a record with no date carrying the
earliest possible date (`dateKey` maps a missing date to the minimum) —
truncated to the first `limit` records, with the limit defaulting to 5;
and on a suburb with 5 dated records and limit 3 it returns exactly the 3
most recently dated records in descending date order. -/
theorem C9_find_recent_sales :
    (∀ (records : List PropertyRecord) (suburb : String) (limit : Nat),
      ∃ full : List PropertyRecord,
        full.Perm (records.filter (suburbPriced suburb)) ∧
        List.Pairwise (fun a b => dateKey b ≤ dateKey a) full ∧
        find_recent_sales records suburb limit = full.take limit) ∧
    (∀ (records : List PropertyRecord) (suburb : String),
      find_recent_sales records suburb = find_recent_sales records suburb 5) ∧
    find_recent_sales D5 "Kippax" 3
      = [kipDated 4 15, kipDated 2 14, kipDated 5 13] := by
  refine ⟨?_, fun _ _ => rfl, by with_unfolding_all rfl⟩
  intro records suburb limit
  refine ⟨(records.filter (suburbPriced suburb)).insertionSort
    (fun a b => dateKey b ≤ dateKey a), ?_, ?_, rfl⟩
  · exact List.perm_insertionSort _ _
  · haveI : IsTotal PropertyRecord (fun a b => dateKey b ≤ dateKey a) :=
      ⟨fun a b => le_total (dateKey b) (dateKey a)⟩
    haveI : IsTrans PropertyRecord (fun a b => dateKey b ≤ dateKey a) :=
      ⟨fun _ _ _ hab hbc => le_trans hbc hab⟩
    exact List.sorted_insertionSort _ _

theorem priceTruthy_zap (r : PropertyRecord) :
    priceTruthy (zapZeroPrice r) = priceTruthy r := by
  dsimp only [zapZeroPrice]
  by_cases h : r.price = some 0
  · rw [if_pos h]
    dsimp only [priceTruthy]
    rw [h]
    simp
  · rw [if_neg h]

theorem suburbPriced_zap (s : String) (r : PropertyRecord) :
    suburbPriced s (zapZeroPrice r) = suburbPriced s r := by
  dsimp only [suburbPriced]
  rw [priceTruthy_zap]
  dsimp only [zapZeroPrice]
  by_cases h : r.price = some 0
  · rw [if_pos h]
  · rw [if_neg h]

theorem zap_eq_self_of_truthy (r : PropertyRecord) (h : priceTruthy r = true) :
    zapZeroPrice r = r := by
  dsimp only [zapZeroPrice]
  rw [if_neg]
  intro hc
  dsimp only [priceTruthy] at h
  rw [hc] at h
  simp at h

theorem priceTruthy_ne_zero (r : PropertyRecord) (h : priceTruthy r = true) :
    r.price ≠ some 0 := by
  intro hc
  dsimp only [priceTruthy] at h
  rw [hc] at h
  simp at h

theorem filter_suburbPriced_map_zap (records : List PropertyRecord) (s : String) :
    (records.map zapZeroPrice).filter (suburbPriced s)
      = records.filter (suburbPriced s) := by
  induction records with
  | nil => rfl
  | cons r rest ih =>
    simp only [List.map_cons, List.filter_cons]
    rw [suburbPriced_zap]
    by_cases h : suburbPriced s r = true
    · rw [if_pos h, if_pos h, ih,
        zap_eq_self_of_truthy r (Bool.and_eq_true _ _ |>.mp h).2]
    · rw [if_neg h, if_neg h, ih]

theorem filter_priceTruthy_map_zap (records : List PropertyRecord) :
    (records.map zapZeroPrice).filter priceTruthy
      = records.filter priceTruthy := by
  induction records with
  | nil => rfl
  | cons r rest ih =>
    simp only [List.map_cons, List.filter_cons]
    rw [priceTruthy_zap]
    by_cases h : priceTruthy r = true
    · rw [if_pos h, if_pos h, ih, zap_eq_self_of_truthy r h]
    · rw [if_neg h, if_neg h, ih]

theorem mem_find_recent_truthy (records : List PropertyRecord) (s : String)
    (limit : Nat) :
    ∀ r ∈ find_recent_sales records s limit, priceTruthy r := by
  intro r hr
  dsimp only [find_recent_sales] at hr
  have h1 : r ∈ (records.filter (suburbPriced s)).insertionSort
      (fun a b => dateKey b ≤ dateKey a) := List.take_subset _ _ hr
  have h2 := (List.perm_insertionSort
    (fun a b => dateKey b ≤ dateKey a) (records.filter (suburbPriced s))).mem_iff.mp h1
  exact (Bool.and_eq_true _ _ |>.mp (List.mem_filter.mp h2).2).2

/-- Claim C10: a record whose price is exactly 0 is treated throughout as
if its price were absent — it never appears in the output of
`select_comparables` or `find_recent_sales`, and replacing every zero
price by an absent price changes neither those outputs nor
`average_price` (so a zero-priced record never influences the
baseline). -/
theorem C10_zero_price_as_absent
    (records : List PropertyRecord) (suburb : String) (beds : Option Nat)
    (limit : Nat) :
    (∀ r ∈ select_comparables records suburb beds, r.price ≠ some 0) ∧
    (∀ r ∈ find_recent_sales records suburb limit, r.price ≠ some 0) ∧
    select_comparables (records.map zapZeroPrice) suburb beds
      = select_comparables records suburb beds ∧
    find_recent_sales (records.map zapZeroPrice) suburb limit
      = find_recent_sales records suburb limit ∧
    average_price (records.map zapZeroPrice) = average_price records := by
  refine ⟨?_, ?_, ?_, ?_, ?_⟩
  · intro r hr
    exact priceTruthy_ne_zero r (mem_select_comparables_truthy records suburb beds r hr)
  · intro r hr
    exact priceTruthy_ne_zero r (mem_find_recent_truthy records suburb limit r hr)
  · dsimp only [select_comparables]
    rw [filter_suburbPriced_map_zap]
  · dsimp only [find_recent_sales]
    rw [filter_suburbPriced_map_zap]
  · dsimp only [average_price]
    rw [filter_priceTruthy_map_zap]

/-- Witness for claim C10 on a concrete dataset holding a zero-priced and
a normally priced record. -/
theorem C10_zero_price_as_absent_witness :
    recLand.price ≠ some 0 ∧
    select_comparables ([recZero, recLand].map zapZeroPrice) "Kippax" none
      = select_comparables [recZero, recLand] "Kippax" none ∧
    average_price ([recZero, recLand].map zapZeroPrice)
      = average_price [recZero, recLand] :=
  ⟨(C10_zero_price_as_absent [recZero, recLand] "Kippax" none 5).1 recLand
      (by
        rw [show select_comparables [recZero, recLand] "Kippax" none = [recLand]
          from by with_unfolding_all rfl]
        exact List.mem_singleton.mpr rfl),
   (C10_zero_price_as_absent [recZero, recLand] "Kippax" none 5).2.2.1,
   (C10_zero_price_as_absent [recZero, recLand] "Kippax" none 5).2.2.2.2⟩
